import Mathlib

/-!
Verification of the `wait_for_model` utility from
`ML 05L - MLflow Lab.py` (Scalable Machine Learning with Apache Spark).

The Python source:

```
def wait_for_model(model_name, version, stage="None", status="READY", timeout=300):
    # (imports the time module here)
    last_stage = "unknown"
    last_status = "unknown"
    for i in range(timeout):
        model_version_details = client.get_model_version(name=model_name, version=version)
        last_stage = str(model_version_details.current_stage)
        last_status = str(model_version_details.status)
        if last_status == str(status) and last_stage == str(stage):
            return
        time.sleep(1)
    raise Exception(f"The model \x7bmodel_name\x7d v\x7bversion\x7d was not \x7bstatus\x7d after \x7btimeout\x7d seconds: \x7blast_status\x7d/\x7blast_stage\x7d")
```

The embedding is shallow: the remote registry is a pure observation
function from tick index to the details record returned by
`client.get_model_version`; `time.sleep(1)` is recorded as a `1` in the
trace of sleep durations; `raise` becomes the `failure` constructor
carrying the exception message.  Python values that flow through `str()`
(the `stage` and `status` arguments, and the fields of the details
record) are modelled by `PyVal`, covering the string, integer and `None`
cases, with `pyStr` as Python's `str()`.
-/

/-- A Python value that the code may pass through `str()`: a string, an
integer, or `None`. -/
inductive PyVal where
  | str (s : String)
  | int (n : Int)
  | none
  deriving DecidableEq

/-- Python's `str()` on a `PyVal`: identity on strings, decimal rendering
of integers, and `"None"` for `None`. -/
def pyStr : PyVal → String
  | PyVal.str s => s
  | PyVal.int n => toString n
  | PyVal.none => "None"

/-- The record returned by `client.get_model_version`: only the two fields
the code reads. -/
structure ModelVersionDetails where
  current_stage : PyVal
  status : PyVal
  deriving DecidableEq

/-- The outcome of a `wait_for_model` call: a normal return or a raised
exception, each carrying the number of registry checks performed and the
trace of sleep durations (in seconds, in order). -/
inductive WaitResult where
  | success (checks : Nat) (sleeps : List Nat)
  | failure (msg : String) (checks : Nat) (sleeps : List Nat)
  deriving DecidableEq

/-- The f-string of the `raise` statement:
`f"The model \x7bmodel_name\x7d v\x7bversion\x7d was not \x7bstatus\x7d after \x7btimeout\x7d seconds: \x7blast_status\x7d/\x7blast_stage\x7d"`. -/
def timeoutMessage (model_name : String) (version : Int) (status : PyVal)
    (timeout : Int) (last_status last_stage : String) : String :=
  "The model " ++ model_name ++ " v" ++ toString version ++ " was not " ++
    pyStr status ++ " after " ++ toString timeout ++ " seconds: " ++
    last_status ++ "/" ++ last_stage

/-- Record one `time.sleep(1)` call, performed before the rest of the
execution described by the given result. -/
def addTick : WaitResult → WaitResult
  | WaitResult.success c sl => WaitResult.success c (1 :: sl)
  | WaitResult.failure m c sl => WaitResult.failure m c (1 :: sl)

/-- The `for i in range(timeout)` loop of `wait_for_model`.  `i` is the
current loop index, `fuel` the number of iterations remaining
(`timeout - i`), and `last_status`/`last_stage` the accumulator variables
of the source.  Each iteration performs one registry check (`get i`); on a
match it returns, otherwise it sleeps one second and continues; when the
range is exhausted it raises the timeout exception. -/
def waitGo (get : Nat → ModelVersionDetails) (model_name : String)
    (version : Int) (stage status : PyVal) (timeout : Int)
    (last_status last_stage : String) (i fuel : Nat) : WaitResult :=
  match fuel with
  | 0 => WaitResult.failure
      (timeoutMessage model_name version status timeout last_status last_stage) i []
  | Nat.succ fuel' =>
      let model_version_details := get i
      let ls := pyStr model_version_details.current_stage
      let lst := pyStr model_version_details.status
      if lst = pyStr status ∧ ls = pyStr stage then
        WaitResult.success (i + 1) []
      else
        addTick (waitGo get model_name version stage status timeout lst ls (i + 1) fuel')

/-- The `wait_for_model` function, with the registry made explicit as the
observation function `get` (tick index to details record). -/
def wait_for_model (model_name : String) (version : Int)
    (get : Nat → ModelVersionDetails) (stage status : PyVal)
    (timeout : Int) : WaitResult :=
  waitGo get model_name version stage status timeout "unknown" "unknown" 0 timeout.toNat

/-- A call of `wait_for_model` that omits `stage`, `status` and `timeout`,
receiving the declared defaults `stage="None"`, `status="READY"`,
`timeout=300`. -/
def wait_for_model_default (model_name : String) (version : Int)
    (get : Nat → ModelVersionDetails) : WaitResult :=
  wait_for_model model_name version get (PyVal.str "None") (PyVal.str "READY") 300

/-- The loop's success test at tick index `i`: the observed status and
stage both equal (after `str()` conversion) the requested ones. -/
abbrev matchesAt (get : Nat → ModelVersionDetails) (i : Nat)
    (stage status : PyVal) : Prop :=
  pyStr (get i).status = pyStr status ∧ pyStr (get i).current_stage = pyStr stage

/-- Substring containment, for statements about exception messages. -/
def strContains (s sub : String) : Prop := List.IsInfix sub.data s.data

instance (s sub : String) : Decidable (strContains s sub) :=
  List.decidableInfix sub.data s.data

/-- The registry observations of the worked example: ticks 1 and 2
(indices 0 and 1) report `("None", "PENDING")`, every later tick reports
`("Staging", "READY")`. -/
def exampleGet : Nat → ModelVersionDetails := fun i =>
  if i < 2 then ⟨PyVal.str "None", PyVal.str "PENDING"⟩
  else ⟨PyVal.str "Staging", PyVal.str "READY"⟩

/-- A registry that never leaves `("None", "PENDING")` (the stage is the
Python `None` object, rendered `"None"` by `str()`). -/
def pendingGet : Nat → ModelVersionDetails :=
  fun _ => ⟨PyVal.none, PyVal.str "PENDING"⟩

/-- A registry whose status field is the string `"1"`, to exercise
non-string target arguments. -/
def intGet : Nat → ModelVersionDetails :=
  fun _ => ⟨PyVal.str "None", PyVal.str "1"⟩

/-- The last-observed (status, stage) pair, as held by the accumulator
variables when the loop starting at index `i` with `fuel` iterations
remaining exhausts its range: the initial accumulator values when the
range is empty, the `str()`-converted fields of the final observation
otherwise. -/
def lastObs (get : Nat → ModelVersionDetails) (i fuel : Nat)
    (last_status last_stage : String) : String × String :=
  match fuel with
  | 0 => (last_status, last_stage)
  | Nat.succ f => (pyStr (get (i + f)).status, pyStr (get (i + f)).current_stage)

/-- The number of registry checks recorded in a result. -/
def checksOf : WaitResult → Nat
  | WaitResult.success c _ => c
  | WaitResult.failure _ c _ => c

theorem addTick_success_iff (r : WaitResult) (c : Nat) (sl : List Nat) :
    addTick r = WaitResult.success c sl ↔
      ∃ sl₀, r = WaitResult.success c sl₀ ∧ sl = 1 :: sl₀ := by
  cases r
  all_goals simp [addTick]
  all_goals aesop

theorem addTick_failure_iff (r : WaitResult) (m : String) (c : Nat) (sl : List Nat) :
    addTick r = WaitResult.failure m c sl ↔
      ∃ sl₀, r = WaitResult.failure m c sl₀ ∧ sl = 1 :: sl₀ := by
  cases r
  all_goals simp [addTick]
  all_goals aesop

theorem lastObs_shift (get : Nat → ModelVersionDetails) (i f : Nat)
    (ls lg : String) :
    lastObs get (i + 1) f (pyStr (get i).status) (pyStr (get i).current_stage) =
      lastObs get i (f + 1) ls lg := by
  cases f with
  | zero => simp [lastObs]
  | succ g =>
      have h : i + 1 + g = i + (g + 1) := by omega
      simp [lastObs, h]

/-- Characterization of the successful outcomes of the loop: it returns
`success (k+1)` exactly when tick index `k` is the first index in the
remaining range whose observation matches, and the recorded sleeps are
one second per preceding iteration. -/
theorem waitGo_success_iff (get : Nat → ModelVersionDetails) (n : String)
    (v : Int) (stage status : PyVal) (t : Int) :
    ∀ (fuel i : Nat) (ls lg : String) (k : Nat) (sl : List Nat),
      waitGo get n v stage status t ls lg i fuel = WaitResult.success (k + 1) sl ↔
        (sl = List.replicate (k - i) 1 ∧ i ≤ k ∧ k < i + fuel ∧
          matchesAt get k stage status ∧
          ∀ j, i ≤ j → j < k → ¬ matchesAt get j stage status) := by
  intro fuel
  induction fuel with
  | zero =>
      intro i ls lg k sl
      constructor
      · intro h
        simp [waitGo] at h
      · rintro ⟨-, h1, h2, -, -⟩
        omega
  | succ f ih =>
      intro i ls lg k sl
      simp only [waitGo]
      by_cases hm : pyStr (get i).status = pyStr status ∧
          pyStr (get i).current_stage = pyStr stage
      · rw [if_pos hm]
        constructor
        · intro h
          rw [WaitResult.success.injEq] at h
          obtain ⟨h1, h2⟩ := h
          have hk : k = i := by omega
          subst hk
          refine ⟨by rw [← h2]; simp, le_refl k, by omega, hm, ?_⟩
          intro j hj1 hj2
          exact absurd (lt_of_le_of_lt hj1 hj2) (lt_irrefl k)
        · rintro ⟨hsl, hik, hkf, hmk, hfirst⟩
          have hk : k = i := by
            by_contra hne
            exact hfirst i (le_refl i) (by omega) hm
          subst hk
          have hsl' : sl = [] := by rw [hsl]; simp
          rw [hsl']
      · rw [if_neg hm]
        rw [addTick_success_iff]
        constructor
        · rintro ⟨sl₀, hr, hsl⟩
          rw [ih (i + 1)] at hr
          obtain ⟨hsl₀, hik, hkf, hmk, hfirst⟩ := hr
          refine ⟨?_, by omega, by omega, hmk, ?_⟩
          · rw [hsl, hsl₀]
            have h : k - i = (k - (i + 1)) + 1 := by omega
            rw [h, List.replicate_succ]
          · intro j hj1 hj2
            rcases Nat.eq_or_lt_of_le hj1 with he | hl
            · rw [← he]; exact hm
            · exact hfirst j hl hj2
        · rintro ⟨hsl, hik, hkf, hmk, hfirst⟩
          have hik₁ : i + 1 ≤ k := by
            rcases Nat.eq_or_lt_of_le hik with he | hl
            · exact absurd hmk (he ▸ hm)
            · omega
          refine ⟨List.replicate (k - (i + 1)) 1, ?_, ?_⟩
          · rw [ih (i + 1)]
            exact ⟨rfl, hik₁, by omega, hmk, fun j hj1 hj2 => hfirst j (by omega) hj2⟩
          · rw [hsl]
            have h : k - i = (k - (i + 1)) + 1 := by omega
            rw [h, List.replicate_succ]

/-- Characterization of the failing outcomes of the loop: it raises
exactly when no observation in the remaining range matches; the exception
message is built from the last-observed pair, the check count equals the
full range, and one second was slept on every iteration. -/
theorem waitGo_failure_iff (get : Nat → ModelVersionDetails) (n : String)
    (v : Int) (stage status : PyVal) (t : Int) :
    ∀ (fuel i : Nat) (ls lg m : String) (c : Nat) (sl : List Nat),
      waitGo get n v stage status t ls lg i fuel = WaitResult.failure m c sl ↔
        ((∀ j, i ≤ j → j < i + fuel → ¬ matchesAt get j stage status) ∧
          m = timeoutMessage n v status t (lastObs get i fuel ls lg).1
                (lastObs get i fuel ls lg).2 ∧
          c = i + fuel ∧ sl = List.replicate fuel 1) := by
  intro fuel
  induction fuel with
  | zero =>
      intro i ls lg m c sl
      constructor
      · intro h
        simp only [waitGo, WaitResult.failure.injEq] at h
        obtain ⟨h1, h2, h3⟩ := h
        exact ⟨fun j hj1 hj2 => absurd (lt_of_le_of_lt hj1 hj2) (by omega),
          h1.symm, by omega, by rw [← h3]; simp⟩
      · rintro ⟨-, h1, h2, h3⟩
        simp only [waitGo, WaitResult.failure.injEq]
        exact ⟨h1.symm, by omega, by rw [h3]; simp⟩
  | succ f ih =>
      intro i ls lg m c sl
      simp only [waitGo]
      by_cases hm : pyStr (get i).status = pyStr status ∧
          pyStr (get i).current_stage = pyStr stage
      · rw [if_pos hm]
        constructor
        · intro h
          exact absurd h (by simp)
        · rintro ⟨hnone, -, -, -⟩
          exact absurd hm (hnone i (le_refl i) (by omega))
      · rw [if_neg hm]
        rw [addTick_failure_iff]
        constructor
        · rintro ⟨sl₀, hr, hsl⟩
          rw [ih (i + 1)] at hr
          obtain ⟨hnone, hmsg, hc, hsl₀⟩ := hr
          refine ⟨?_, ?_, by omega, by rw [hsl, hsl₀, List.replicate_succ]⟩
          · intro j hj1 hj2
            rcases Nat.eq_or_lt_of_le hj1 with he | hl
            · rw [← he]; exact hm
            · exact hnone j hl (by omega)
          · rw [hmsg, lastObs_shift get i f ls lg]
        · rintro ⟨hnone, hmsg, hc, hsl⟩
          refine ⟨List.replicate f 1, ?_, by rw [hsl, List.replicate_succ]⟩
          rw [ih (i + 1)]
          refine ⟨fun j hj1 hj2 => hnone j (by omega) (by omega), ?_, by omega, rfl⟩
          rw [hmsg, lastObs_shift get i f ls lg]

theorem waitGo_success_pos (get : Nat → ModelVersionDetails) (n : String)
    (v : Int) (stage status : PyVal) (t : Int) :
    ∀ (fuel i : Nat) (ls lg : String) (sl : List Nat),
      waitGo get n v stage status t ls lg i fuel ≠ WaitResult.success 0 sl := by
  intro fuel
  induction fuel with
  | zero =>
      intro i ls lg sl h
      simp [waitGo] at h
  | succ f ih =>
      intro i ls lg sl h
      simp only [waitGo] at h
      by_cases hm : pyStr (get i).status = pyStr status ∧
          pyStr (get i).current_stage = pyStr stage
      · rw [if_pos hm] at h
        simp at h
      · rw [if_neg hm, addTick_success_iff] at h
        obtain ⟨sl₀, hr, -⟩ := h
        exact ih (i + 1) _ _ sl₀ hr

theorem checksOf_addTick (r : WaitResult) : checksOf (addTick r) = checksOf r := by
  cases r <;> rfl

theorem waitGo_checksOf_le (get : Nat → ModelVersionDetails) (n : String)
    (v : Int) (stage status : PyVal) (t : Int) :
    ∀ (fuel i : Nat) (ls lg : String),
      checksOf (waitGo get n v stage status t ls lg i fuel) ≤ i + fuel := by
  intro fuel
  induction fuel with
  | zero =>
      intro i ls lg
      simp [waitGo, checksOf]
  | succ f ih =>
      intro i ls lg
      simp only [waitGo]
      by_cases hm : pyStr (get i).status = pyStr status ∧
          pyStr (get i).current_stage = pyStr stage
      · rw [if_pos hm]
        simp [checksOf]
      · rw [if_neg hm, checksOf_addTick]
        have := ih (i + 1) (pyStr (get i).status) (pyStr (get i).current_stage)
        omega

/-- The exception message syntactically contains the last-observed
`status/stage` pair, the timeout value, the model identifier, and the
requested status. -/
theorem timeoutMessage_contains (n : String) (v : Int) (status : PyVal)
    (t : Int) (ls lg : String) :
    strContains (timeoutMessage n v status t ls lg) (ls ++ "/" ++ lg) ∧
    strContains (timeoutMessage n v status t ls lg) (toString t) ∧
    strContains (timeoutMessage n v status t ls lg)
      ("The model " ++ n ++ " v" ++ toString v) ∧
    strContains (timeoutMessage n v status t ls lg) (pyStr status) := by
  unfold strContains List.IsInfix
  refine ⟨⟨("The model " ++ n ++ " v" ++ toString v ++ " was not " ++
        pyStr status ++ " after " ++ toString t ++ " seconds: ").data, [], ?_⟩,
    ⟨("The model " ++ n ++ " v" ++ toString v ++ " was not " ++
        pyStr status ++ " after ").data, (" seconds: " ++ ls ++ "/" ++ lg).data, ?_⟩,
    ⟨[], (" was not " ++ pyStr status ++ " after " ++ toString t ++
        " seconds: " ++ ls ++ "/" ++ lg).data, ?_⟩,
    ⟨("The model " ++ n ++ " v" ++ toString v ++ " was not ").data,
      (" after " ++ toString t ++ " seconds: " ++ ls ++ "/" ++ lg).data, ?_⟩⟩
  all_goals simp [timeoutMessage, String.data_append, List.append_assoc]

/-- C1: for every target stage/status and every positive timeout, if the
registry observations first match the target pair on tick `k` with
`k < timeout`, then `wait_for_model` performs exactly `k` registry checks
(sleeping one second between consecutive checks) and returns without
failing. -/
theorem wait_for_model_returns_after_first_match (model_name : String)
    (version : Int) (get : Nat → ModelVersionDetails) (stage status : PyVal)
    (timeout : Int) (k : Nat) (hk : 0 < k) (hkt : (k : Int) < timeout)
    (hmatch : matchesAt get (k - 1) stage status)
    (hfirst : ∀ j, j < k - 1 → ¬ matchesAt get j stage status) :
    wait_for_model model_name version get stage status timeout =
      WaitResult.success k (List.replicate (k - 1) 1) := by
  obtain ⟨j, rfl⟩ : ∃ j, k = j + 1 := ⟨k - 1, by omega⟩
  simp only [Nat.add_sub_cancel] at hmatch hfirst ⊢
  unfold wait_for_model
  rw [waitGo_success_iff]
  exact ⟨by simp, Nat.zero_le j, by omega, hmatch,
    fun i hi1 hi2 => hfirst i hi2⟩

/-- Witness for C1 at the spec's example: target `("Staging", "READY")`
with timeout 5 against a registry reporting `("None", "PENDING")` on the
first two ticks and `("Staging", "READY")` afterwards returns after the
3rd check. -/
theorem wait_for_model_returns_after_first_match_witness :
    0 < 3 ∧ ((3 : Nat) : Int) < 5 ∧
    matchesAt exampleGet 2 (PyVal.str "Staging") (PyVal.str "READY") ∧
    wait_for_model "m" 1 exampleGet (PyVal.str "Staging") (PyVal.str "READY") 5 =
      WaitResult.success 3 (List.replicate 2 1) :=
  ⟨by decide, by decide, by decide,
    wait_for_model_returns_after_first_match "m" 1 exampleGet
      (PyVal.str "Staging") (PyVal.str "READY") 5 3 (by decide) (by decide)
      (by decide) (by decide)⟩

/-- C2: for every target stage/status and positive timeout, if no
observation during the wait matches the target pair, `wait_for_model`
performs exactly `timeout` checks (one per tick) and raises an error
whose message contains the model identifier, the requested status, the
requested timeout, and the last-observed `status/stage` pair. -/
theorem wait_for_model_timeout_failure (model_name : String) (version : Int)
    (get : Nat → ModelVersionDetails) (stage status : PyVal) (timeout : Int)
    (ht : 0 < timeout)
    (hnone : ∀ j, j < timeout.toNat → ¬ matchesAt get j stage status) :
    wait_for_model model_name version get stage status timeout =
      WaitResult.failure
        (timeoutMessage model_name version status timeout
          (pyStr (get (timeout.toNat - 1)).status)
          (pyStr (get (timeout.toNat - 1)).current_stage))
        timeout.toNat (List.replicate timeout.toNat 1) ∧
    strContains
      (timeoutMessage model_name version status timeout
        (pyStr (get (timeout.toNat - 1)).status)
        (pyStr (get (timeout.toNat - 1)).current_stage))
      (pyStr (get (timeout.toNat - 1)).status ++ "/" ++
        pyStr (get (timeout.toNat - 1)).current_stage) ∧
    strContains
      (timeoutMessage model_name version status timeout
        (pyStr (get (timeout.toNat - 1)).status)
        (pyStr (get (timeout.toNat - 1)).current_stage))
      (toString timeout) ∧
    strContains
      (timeoutMessage model_name version status timeout
        (pyStr (get (timeout.toNat - 1)).status)
        (pyStr (get (timeout.toNat - 1)).current_stage))
      ("The model " ++ model_name ++ " v" ++ toString version) ∧
    strContains
      (timeoutMessage model_name version status timeout
        (pyStr (get (timeout.toNat - 1)).status)
        (pyStr (get (timeout.toNat - 1)).current_stage))
      (pyStr status) := by
  obtain ⟨hc1, hc2, hc3, hc4⟩ := timeoutMessage_contains model_name version
    status timeout (pyStr (get (timeout.toNat - 1)).status)
    (pyStr (get (timeout.toNat - 1)).current_stage)
  refine ⟨?_, hc1, hc2, hc3, hc4⟩
  obtain ⟨f, hf⟩ : ∃ f, timeout.toNat = f + 1 := ⟨timeout.toNat - 1, by omega⟩
  unfold wait_for_model
  rw [waitGo_failure_iff]
  rw [hf]
  refine ⟨fun j hj1 hj2 => hnone j (by omega), ?_, by omega, rfl⟩
  simp [lastObs, hf]

/-- Witness for C2 at the spec's example: target `("Staging", "READY")`
with timeout 5 against a registry stuck at `(None, "PENDING")` performs
5 checks and raises a message containing `"m v1"`, `"READY"`, `"5"` and
`"PENDING/None"`. -/
theorem wait_for_model_timeout_failure_witness :
    (0 : Int) < 5 ∧
    wait_for_model "m" 1 pendingGet (PyVal.str "Staging") (PyVal.str "READY") 5 =
      WaitResult.failure
        "The model m v1 was not READY after 5 seconds: PENDING/None"
        5 (List.replicate 5 1) ∧
    strContains "The model m v1 was not READY after 5 seconds: PENDING/None"
      ("PENDING" ++ "/" ++ "None") ∧
    strContains "The model m v1 was not READY after 5 seconds: PENDING/None"
      "5" ∧
    strContains "The model m v1 was not READY after 5 seconds: PENDING/None"
      ("The model " ++ "m" ++ " v" ++ "1") ∧
    strContains "The model m v1 was not READY after 5 seconds: PENDING/None"
      "READY" := by
  have h := wait_for_model_timeout_failure "m" 1 pendingGet
    (PyVal.str "Staging") (PyVal.str "READY") 5 (by decide) (by decide)
  exact ⟨by decide, h.1, h.2.1, h.2.2.1, h.2.2.2.1, h.2.2.2.2⟩

/-- C4: if the registry reports the target pair on the very first check,
`wait_for_model` returns after exactly one check with an empty sleep
trace, for every positive timeout however large. -/
theorem wait_for_model_immediate_success (model_name : String) (version : Int)
    (get : Nat → ModelVersionDetails) (stage status : PyVal) (timeout : Int)
    (ht : 0 < timeout) (hmatch : matchesAt get 0 stage status) :
    wait_for_model model_name version get stage status timeout =
      WaitResult.success 1 [] := by
  have h := (waitGo_success_iff get model_name version stage status timeout
    timeout.toNat 0 "unknown" "unknown" 0 []).mpr
    ⟨by simp, le_refl 0, by omega, hmatch,
      fun j hj1 hj2 => absurd (lt_of_le_of_lt hj1 hj2) (lt_irrefl 0)⟩
  exact h

/-- Witness for C4: a registry already at `("None", "PENDING")` makes the
wait for that very pair return after one check even with timeout 300. -/
theorem wait_for_model_immediate_success_witness :
    (0 : Int) < 300 ∧
    matchesAt exampleGet 0 (PyVal.str "None") (PyVal.str "PENDING") ∧
    wait_for_model "m" 1 exampleGet (PyVal.str "None") (PyVal.str "PENDING") 300 =
      WaitResult.success 1 [] :=
  ⟨by decide, by decide,
    wait_for_model_immediate_success "m" 1 exampleGet (PyVal.str "None")
      (PyVal.str "PENDING") 300 (by decide) (by decide)⟩

/-- C5: `wait_for_model` returns successfully at check `k+1` exactly when
the observation at tick index `k` matches the target on both components
and no earlier observation matched both; an observation matching on only
one component never terminates the wait. -/
theorem wait_for_model_success_iff_both_components_match (model_name : String)
    (version : Int) (get : Nat → ModelVersionDetails) (stage status : PyVal)
    (timeout : Int) (k : Nat) (sl : List Nat) :
    wait_for_model model_name version get stage status timeout =
      WaitResult.success (k + 1) sl ↔
      (sl = List.replicate k 1 ∧ k < timeout.toNat ∧
        (pyStr (get k).status = pyStr status ∧
          pyStr (get k).current_stage = pyStr stage) ∧
        ∀ j, j < k →
          ¬ (pyStr (get j).status = pyStr status ∧
              pyStr (get j).current_stage = pyStr stage)) := by
  unfold wait_for_model
  rw [waitGo_success_iff]
  constructor
  · rintro ⟨h1, -, h3, h4, h5⟩
    exact ⟨by simpa using h1, by omega, h4, fun j hj => h5 j (Nat.zero_le j) hj⟩
  · rintro ⟨h1, h2, h3, h4⟩
    exact ⟨by simpa using h1, Nat.zero_le k, by omega, h3, fun j hj1 hj2 => h4 j hj2⟩

/-- Witness for C5 at the spec's example: the wait returns at the 3rd
check precisely because tick 3 is the first whose observation matches on
both components. -/
theorem wait_for_model_success_iff_both_components_match_witness :
    wait_for_model "m" 1 exampleGet (PyVal.str "Staging") (PyVal.str "READY") 5 =
      WaitResult.success 3 [1, 1] :=
  (wait_for_model_success_iff_both_components_match "m" 1 exampleGet
    (PyVal.str "Staging") (PyVal.str "READY") 5 2 [1, 1]).mpr
    ⟨by decide, by decide, by decide, by decide⟩

/-- C3 (counterexample): the claim says every timeout error carries both
the requested stage and the requested status.  Waiting for stage
`"Staging"` with status `"READY"` against a registry stuck at
`(None, "PENDING")` raises a message that contains the requested status
`"READY"` but nowhere contains the requested stage `"Staging"`. -/
theorem wait_for_model_error_lacks_target_stage :
    wait_for_model "m" 1 pendingGet (PyVal.str "Staging") (PyVal.str "READY") 5 =
      WaitResult.failure
        "The model m v1 was not READY after 5 seconds: PENDING/None"
        5 [1, 1, 1, 1, 1] ∧
    ¬ strContains "The model m v1 was not READY after 5 seconds: PENDING/None"
      "Staging" := by
  constructor
  · decide
  · decide

/-- C3 (amended): whenever `wait_for_model` fails with a timeout, the
error message carries the model identifier (name and version), the
requested status, the timeout, and the last-observed status/stage pair,
but not the requested stage. -/
theorem wait_for_model_error_contents (model_name : String) (version : Int)
    (get : Nat → ModelVersionDetails) (stage status : PyVal) (timeout : Int)
    (m : String) (c : Nat) (sl : List Nat)
    (h : wait_for_model model_name version get stage status timeout =
      WaitResult.failure m c sl) :
    m = timeoutMessage model_name version status timeout
          (lastObs get 0 timeout.toNat "unknown" "unknown").1
          (lastObs get 0 timeout.toNat "unknown" "unknown").2 ∧
    strContains m ("The model " ++ model_name ++ " v" ++ toString version) ∧
    strContains m (pyStr status) ∧
    strContains m (toString timeout) ∧
    strContains m ((lastObs get 0 timeout.toNat "unknown" "unknown").1 ++ "/" ++
      (lastObs get 0 timeout.toNat "unknown" "unknown").2) := by
  unfold wait_for_model at h
  rw [waitGo_failure_iff] at h
  obtain ⟨-, hm, -, -⟩ := h
  obtain ⟨hc1, hc2, hc3, hc4⟩ := timeoutMessage_contains model_name version
    status timeout (lastObs get 0 timeout.toNat "unknown" "unknown").1
    (lastObs get 0 timeout.toNat "unknown" "unknown").2
  exact ⟨hm, hm ▸ hc3, hm ▸ hc4, hm ▸ hc2, hm ▸ hc1⟩

/-- Witness for the amended C3 at the counterexample's input. -/
theorem wait_for_model_error_contents_witness :
    "The model m v1 was not READY after 5 seconds: PENDING/None" =
      timeoutMessage "m" 1 (PyVal.str "READY") 5
        (lastObs pendingGet 0 (5 : Int).toNat "unknown" "unknown").1
        (lastObs pendingGet 0 (5 : Int).toNat "unknown" "unknown").2 ∧
    strContains "The model m v1 was not READY after 5 seconds: PENDING/None"
      ("The model " ++ "m" ++ " v" ++ "1") ∧
    strContains "The model m v1 was not READY after 5 seconds: PENDING/None"
      "READY" ∧
    strContains "The model m v1 was not READY after 5 seconds: PENDING/None"
      "5" ∧
    strContains "The model m v1 was not READY after 5 seconds: PENDING/None"
      ((lastObs pendingGet 0 (5 : Int).toNat "unknown" "unknown").1 ++ "/" ++
        (lastObs pendingGet 0 (5 : Int).toNat "unknown" "unknown").2) :=
  wait_for_model_error_contents "m" 1 pendingGet (PyVal.str "Staging")
    (PyVal.str "READY") 5
    "The model m v1 was not READY after 5 seconds: PENDING/None"
    5 [1, 1, 1, 1, 1] (by decide)

/-- C6: a call omitting stage, status and timeout uses the defaults
`"None"`, `"READY"` and 300, and its number of registry checks never
exceeds 300. -/
theorem wait_for_model_default_timeout_300 (model_name : String)
    (version : Int) (get : Nat → ModelVersionDetails) :
    wait_for_model_default model_name version get =
      wait_for_model model_name version get (PyVal.str "None")
        (PyVal.str "READY") 300 ∧
    checksOf (wait_for_model_default model_name version get) ≤ 300 := by
  refine ⟨rfl, ?_⟩
  have h := waitGo_checksOf_le get model_name version (PyVal.str "None")
    (PyVal.str "READY") 300 ((300 : Int).toNat) 0 "unknown" "unknown"
  simpa [wait_for_model_default, wait_for_model] using h

/-- Witness for C6 at a registry that never reaches the default target. -/
theorem wait_for_model_default_timeout_300_witness :
    wait_for_model_default "m" 1 pendingGet =
      wait_for_model "m" 1 pendingGet (PyVal.str "None") (PyVal.str "READY") 300 ∧
    checksOf (wait_for_model_default "m" 1 pendingGet) ≤ 300 :=
  wait_for_model_default_timeout_300 "m" 1 pendingGet

/-- C7: the wait sleeps exactly one second between consecutive registry
checks, the same constant on every iteration: a successful wait of `c`
checks records `c - 1` unit sleeps, and a failed wait of `c` checks
records `c` unit sleeps, never any other duration. -/
theorem wait_for_model_unit_sleep_cadence (model_name : String)
    (version : Int) (get : Nat → ModelVersionDetails) (stage status : PyVal)
    (timeout : Int) :
    (∀ c sl, wait_for_model model_name version get stage status timeout =
        WaitResult.success c sl → sl = List.replicate (c - 1) 1) ∧
    (∀ m c sl, wait_for_model model_name version get stage status timeout =
        WaitResult.failure m c sl → sl = List.replicate c 1) := by
  constructor
  · intro c sl h
    cases c with
    | zero =>
        exact absurd h (waitGo_success_pos get model_name version stage status
          timeout timeout.toNat 0 "unknown" "unknown" sl)
    | succ k =>
        unfold wait_for_model at h
        rw [waitGo_success_iff] at h
        obtain ⟨h1, -, -, -, -⟩ := h
        simpa using h1
  · intro m c sl h
    unfold wait_for_model at h
    rw [waitGo_failure_iff] at h
    obtain ⟨-, -, hc, hsl⟩ := h
    rw [hsl, hc]
    simp

/-- Witness for C7 on both outcomes: the success at the spec's example
slept `[1, 1]`, and the failure there slept `[1, 1, 1, 1, 1]`. -/
theorem wait_for_model_unit_sleep_cadence_witness :
    [1, 1] = List.replicate (3 - 1) 1 ∧
    [1, 1, 1, 1, 1] = List.replicate 5 1 :=
  ⟨(wait_for_model_unit_sleep_cadence "m" 1 exampleGet (PyVal.str "Staging")
      (PyVal.str "READY") 5).1 3 [1, 1] (by decide),
    (wait_for_model_unit_sleep_cadence "m" 1 pendingGet (PyVal.str "Staging")
      (PyVal.str "READY") 5).2
      "The model m v1 was not READY after 5 seconds: PENDING/None"
      5 [1, 1, 1, 1, 1] (by decide)⟩

/-- C8: a non-positive timeout performs zero registry checks, sleeps
never, and immediately raises the timeout error with the last-observed
status and stage both reported as `"unknown"`. -/
theorem wait_for_model_nonpositive_timeout (model_name : String)
    (version : Int) (get : Nat → ModelVersionDetails) (stage status : PyVal)
    (timeout : Int) (ht : timeout ≤ 0) :
    wait_for_model model_name version get stage status timeout =
      WaitResult.failure
        (timeoutMessage model_name version status timeout "unknown" "unknown")
        0 [] ∧
    strContains
      (timeoutMessage model_name version status timeout "unknown" "unknown")
      "unknown/unknown" := by
  constructor
  · unfold wait_for_model
    have h : timeout.toNat = 0 := by omega
    rw [h]
    rfl
  · have h := (timeoutMessage_contains model_name version status timeout
      "unknown" "unknown").1
    have he : ("unknown" ++ "/" ++ "unknown" : String) = "unknown/unknown" := by
      decide
    rwa [he] at h

/-- Witness for C8 at timeout 0. -/
theorem wait_for_model_nonpositive_timeout_witness :
    (0 : Int) ≤ 0 ∧
    (wait_for_model "m" 1 pendingGet (PyVal.str "None") (PyVal.str "READY") 0 =
      WaitResult.failure
        (timeoutMessage "m" 1 (PyVal.str "READY") 0 "unknown" "unknown")
        0 [] ∧
    strContains (timeoutMessage "m" 1 (PyVal.str "READY") 0 "unknown" "unknown")
      "unknown/unknown") :=
  ⟨le_refl 0,
    wait_for_model_nonpositive_timeout "m" 1 pendingGet (PyVal.str "None")
      (PyVal.str "READY") 0 (by decide)⟩

/-- C9: the success test compares the `str()` conversion of each side:
the wait succeeds on its first check exactly when the string forms of the
observed and requested status and stage coincide, so the comparison is
case-sensitive and a non-string target matches precisely the registry
value equal to its string form. -/
theorem wait_for_model_compares_string_forms (model_name : String)
    (version : Int) (get : Nat → ModelVersionDetails) (stage status : PyVal)
    (timeout : Int) (ht : 0 < timeout) :
    wait_for_model model_name version get stage status timeout =
      WaitResult.success 1 [] ↔
      (pyStr (get 0).status = pyStr status ∧
        pyStr (get 0).current_stage = pyStr stage) := by
  constructor
  · intro h
    have h1 : wait_for_model model_name version get stage status timeout =
        WaitResult.success (0 + 1) [] := h
    unfold wait_for_model at h1
    rw [waitGo_success_iff] at h1
    exact h1.2.2.2.1
  · intro hmatch
    exact wait_for_model_immediate_success model_name version get stage status
      timeout ht hmatch

/-- Witness for C9: the integer target `1` matches the registry string
`"1"`, and the `None` target matches the registry string `"None"`. -/
theorem wait_for_model_compares_string_forms_witness :
    (0 : Int) < 1 ∧
    (wait_for_model "m" 1 intGet PyVal.none (PyVal.int 1) 1 =
      WaitResult.success 1 [] ↔
      (pyStr (intGet 0).status = pyStr (PyVal.int 1) ∧
        pyStr (intGet 0).current_stage = pyStr PyVal.none)) :=
  ⟨by decide,
    wait_for_model_compares_string_forms "m" 1 intGet PyVal.none (PyVal.int 1)
      1 (by decide)⟩

/-- C10: the outcome of `wait_for_model` is a function of its arguments
and the observation sequence alone: two executions with equal arguments
and pointwise-equal observation sequences produce identical results, so
they succeed after the same number of checks or fail with identical
messages. -/
theorem wait_for_model_deterministic (n₁ n₂ : String) (v₁ v₂ : Int)
    (g₁ g₂ : Nat → ModelVersionDetails) (stage₁ stage₂ status₁ status₂ : PyVal)
    (t₁ t₂ : Int) (hn : n₁ = n₂) (hv : v₁ = v₂) (hg : ∀ i, g₁ i = g₂ i)
    (hstage : stage₁ = stage₂) (hstatus : status₁ = status₂) (ht : t₁ = t₂) :
    wait_for_model n₁ v₁ g₁ stage₁ status₁ t₁ =
      wait_for_model n₂ v₂ g₂ stage₂ status₂ t₂ := by
  subst hn hv hstage hstatus ht
  rw [funext hg]

/-- Witness for C10 at equal concrete inputs. -/
theorem wait_for_model_deterministic_witness :
    wait_for_model "m" 1 pendingGet (PyVal.str "None") (PyVal.str "READY") 2 =
      wait_for_model "m" 1 pendingGet (PyVal.str "None") (PyVal.str "READY") 2 :=
  wait_for_model_deterministic "m" "m" 1 1 pendingGet pendingGet
    (PyVal.str "None") (PyVal.str "None") (PyVal.str "READY")
    (PyVal.str "READY") 2 2 rfl rfl (fun _ => rfl) rfl rfl rfl
